import Mathlib

/-
Verification of the GoodNews backend (src/backend/main.py) against its
natural-language specification.  Timestamps (datetime values) are modelled
as natural numbers counting seconds; `timedelta(minutes=m)` is `m * 60`
seconds and `timedelta(days=d)` is `d * 86400` seconds.
-/

set_option autoImplicit false

namespace GoodNews

/-! ## Data model (src/backend/main.py, lines 27-49) -/

/-- An article record as written to the JSON snapshot by `add_article`
(main.py lines 116-123).  The stored records carry exactly the keys
`id, title, url, status, publish_at, unpublish_at`; there is no
`updated_at`, `created_at` or `owner_id` key in this implementation. -/
structure Article where
  id : String
  title : String
  url : String
  status : String
  publish_at : Nat
  unpublish_at : Nat
deriving DecidableEq, Repr

/-- `CreateArticleRequest` (main.py lines 35-39): `publish_at` is the only
optional scheduling input on create. -/
structure CreateArticleRequest where
  title : String
  url : String
  status : String
  publish_at : Option Nat
deriving DecidableEq, Repr

/-- `UpdateArticleRequest` (main.py lines 41-45): every field defaults to
`None`, i.e. `none`. -/
structure UpdateArticleRequest where
  title : Option String
  url : Option String
  status : Option String
  publish_at : Option Nat
deriving DecidableEq, Repr

/-- `timedelta(days=36500)` (the "100 tahun" sentinel of main.py lines 111
and 143), in seconds. -/
def unpublishDelta : Nat := 36500 * 86400

/-- `TOKEN_EXPIRATION_MINUTES = 60` (main.py line 19). -/
def TOKEN_EXPIRATION_MINUTES : Nat := 60

/-- `SECRET_KEY = "supersecretkey"` (main.py line 17). -/
def SECRET_KEY : String := "supersecretkey"

/-! ## Persistence (main.py lines 52-61) -/

/-- The state of the snapshot file `articles_db.json` as `load_articles`
can observe it: missing, present but not valid JSON, or a well-formed list
of article records. -/
inductive Snapshot where
  | absent
  | malformed
  | wellFormed (articles : List Article)
deriving DecidableEq, Repr

/-- The exception `json.load` raises on malformed content. -/
inductive LoadError where
  | jsonDecodeError
deriving DecidableEq, Repr

/-- `load_articles` (main.py lines 52-56): a missing file yields `[]`;
otherwise the result of `json.load`, which returns the parsed records or
raises `JSONDecodeError` on malformed content (nothing in `load_articles`
catches it). -/
def load_articles : Snapshot → Except LoadError (List Article)
  | .absent => .ok []
  | .malformed => .error .jsonDecodeError
  | .wellFormed articles => .ok articles

/-! ## Credential check (main.py lines 14-15 and 70-73) -/

/-- The environment-derived admin configuration (main.py lines 14-15):
`os.getenv` returns `None` when the variable is unset, hence `Option`. -/
structure AdminConfig where
  ADMIN_USER_ID : Option String
  ADMIN_PASSWORD_HASH : Option String
deriving DecidableEq, Repr

/-- The distinct ways `verify_admin` can fail: the explicit
`HTTPException(401, "Invalid credentials")`, the `AttributeError` raised by
`ADMIN_PASSWORD_HASH.encode()` when the hash is `None`, and an exception
raised inside `bcrypt.checkpw` (e.g. an invalid salt). -/
inductive VerifyError where
  | invalidCredentials
  | attributeError
  | bcryptError
deriving DecidableEq, Repr

/-- `verify_admin` (main.py lines 70-73).  The Python condition
`username != ADMIN_USER_ID or not bcrypt.checkpw(password.encode(),
ADMIN_PASSWORD_HASH.encode())` short-circuits: the hash is only touched
when the username matches.  `bcrypt.checkpw` is abstracted as a function
`checkpw` that either returns a boolean or raises. -/
def verify_admin (cfg : AdminConfig) (checkpw : String → String → Except Unit Bool)
    (username password : String) : Except VerifyError Bool :=
  if some username != cfg.ADMIN_USER_ID then
    .error .invalidCredentials
  else
    match cfg.ADMIN_PASSWORD_HASH with
    | none => .error .attributeError
    | some hash =>
      match checkpw password hash with
      | .error _ => .error .bcryptError
      | .ok ok => if !ok then .error .invalidCredentials else .ok true

/-! ## Token service (main.py lines 17-19, 64-67 and 76-87) -/

/-- The claims of the JWT payload built by `create_token`
(main.py line 66): `{"sub": username, "exp": expiration}`. -/
structure TokenPayload where
  sub : String
  exp : Nat
deriving DecidableEq, Repr

/-- Modelled from the spec: the signed token produced by `jwt.encode`
(the PyJWT library, not part of this repository).  The spec's Token
Service issues "signed, time-limited session tokens"; the signature is
modelled by recording the key the token was signed with, so signature
verification is comparison with the verifier's key. -/
structure SignedToken where
  payload : TokenPayload
  signedWith : String
deriving DecidableEq, Repr

/-- The PyJWT exceptions distinguished by `get_current_admin`. -/
inductive JwtError where
  | expiredSignatureError
  | invalidTokenError
deriving DecidableEq, Repr

/-- `create_token` (main.py lines 64-67): expiry is issue time plus
`TOKEN_EXPIRATION_MINUTES`, signed with `SECRET_KEY`. -/
def create_token (now : Nat) (username : String) : SignedToken :=
  { payload := { sub := username, exp := now + TOKEN_EXPIRATION_MINUTES * 60 },
    signedWith := SECRET_KEY }

/-- Modelled from the spec: `jwt.decode` (the PyJWT library, not part of
this repository).  Per the spec's Token Service contract it "verifies
signature, checks expiry", failing with `ExpiredToken` when current time
is beyond the embedded expiry and with `InvalidToken` when signature
verification fails. -/
def jwt_decode (token : SignedToken) (key : String) (now : Nat) :
    Except JwtError TokenPayload :=
  if token.signedWith != key then .error .invalidTokenError
  else if decide (token.payload.exp < now) then .error .expiredSignatureError
  else .ok token.payload

/-- The `Authorization` header as `get_current_admin` inspects it
(main.py lines 76-80): absent, present but not of the form
`Bearer <token>`, or carrying a token. -/
inductive AuthHeader where
  | missing
  | notBearer
  | bearer (token : SignedToken)

/-- The 401 failures of `get_current_admin`. -/
inductive TokenError where
  | missingToken
  | tokenExpired
  | invalidToken
deriving DecidableEq, Repr

/-- `get_current_admin` (main.py lines 76-87): a missing or non-Bearer
header is rejected as "Missing token"; otherwise the token is decoded with
`SECRET_KEY` and the `sub` claim is returned, with `ExpiredSignatureError`
mapped to "Token expired" and `InvalidTokenError` to "Invalid token". -/
def get_current_admin (now : Nat) (authorization : AuthHeader) :
    Except TokenError String :=
  match authorization with
  | .missing => .error .missingToken
  | .notBearer => .error .missingToken
  | .bearer token =>
    match jwt_decode token SECRET_KEY now with
    | .error .expiredSignatureError => .error .tokenExpired
    | .error .invalidTokenError => .error .invalidToken
    | .ok payload => .ok payload.sub

/-! ## Article endpoints (main.py lines 97-149) -/

/-- `get_articles` (main.py lines 97-101): the published-only listing,
keeping insertion order. -/
def get_articles (articles : List Article) : List Article :=
  articles.filter (fun a => a.status == "published")

/-- `add_article` (main.py lines 104-127), acting on the loaded article
list: assigns `id = str(len(articles) + 1)`; when the requested status is
`"published"` the publish time is the caller's value or now and the
unpublish time is that publish time plus `timedelta(days=36500)`; for any
other status both are now.  The record is appended unconditionally — there
is no duplicate-url check anywhere in the function. -/
def add_article (now : Nat) (article : CreateArticleRequest)
    (articles : List Article) : Article × List Article :=
  let article_id := toString (articles.length + 1)
  let sched :=
    if article.status == "published" then
      let publish_at := article.publish_at.getD now
      (publish_at, publish_at + unpublishDelta)
    else
      (now, now)
  let new_article : Article :=
    { id := article_id, title := article.title, url := article.url,
      status := article.status, publish_at := sched.1, unpublish_at := sched.2 }
  (new_article, articles ++ [new_article])

/-- Python truthiness of an `Optional[str]` field: `None` and `""` are
falsy, every other string is truthy (the `if update_data.title:` guards of
main.py lines 135-139). -/
def truthyStr : Option String → Bool
  | none => false
  | some s => s != ""

/-- The body of the `update_article` loop for the matching article
(main.py lines 135-145): each truthy patch field overwrites the record
field; a truthy status additionally reapplies scheduling — for
`"published"` it sets `publish_at` to the patch value or now and
`unpublish_at` to now plus the 100-year sentinel, for any other status it
sets only `unpublish_at` to now. -/
def patchArticle (now : Nat) (update_data : UpdateArticleRequest)
    (article : Article) : Article :=
  let a1 := if truthyStr update_data.title then
    { article with title := update_data.title.getD article.title } else article
  let a2 := if truthyStr update_data.url then
    { a1 with url := update_data.url.getD a1.url } else a1
  if truthyStr update_data.status then
    let s := update_data.status.getD a2.status
    let a3 := { a2 with status := s }
    if s == "published" then
      { a3 with publish_at := update_data.publish_at.getD now,
                unpublish_at := now + unpublishDelta }
    else
      { a3 with unpublish_at := now }
  else a2

/-- The `HTTPException(404, "Article not found")` of main.py line 149. -/
inductive UpdateError where
  | notFound
deriving DecidableEq, Repr

/-- `update_article` (main.py lines 130-149), acting on the loaded article
list: walks the list, patches the first record whose `id` matches, saves
and returns it; raises 404 when no record matches. -/
def update_article (now : Nat) (article_id : String)
    (update_data : UpdateArticleRequest) :
    List Article → Except UpdateError (Article × List Article)
  | [] => .error .notFound
  | article :: rest =>
    if article.id == article_id then
      let updated := patchArticle now update_data article
      .ok (updated, updated :: rest)
    else
      match update_article now article_id update_data rest with
      | .ok (u, rest') => .ok (u, article :: rest')
      | .error e => .error e

/-! ## Lifecycle scheduler (spec section 4.4) -/

/-- Modelled from the spec: the article record as the Lifecycle Scheduler
sees it, with the optional scheduling timestamps and the `updated_at`
field of the spec's data model.  No scheduler exists anywhere in
src/backend/main.py; the whole component is reconstructed from spec
section 4.4. -/
structure SpecArticle where
  status : String
  publish_at : Option Nat
  unpublish_at : Option Nat
  updated_at : Nat
deriving DecidableEq, Repr

/-- Whether an optional scheduled time is set and already due. -/
def dueOpt (now : Nat) : Option Nat → Bool
  | none => false
  | some t => decide (t ≤ now)

/-- Modelled from the spec: one article's treatment on a scheduler tick
(spec section 4.4, steps 2 and 3).  An unpublished article whose
`publish_at` is set and due becomes published; otherwise a published
article whose `unpublish_at` is set and due becomes unpublished; any
transition stamps `updated_at = now`; nothing else changes. -/
def sweepArticle (now : Nat) (a : SpecArticle) : SpecArticle :=
  if a.status == "unpublished" && dueOpt now a.publish_at then
    { a with status := "published", updated_at := now }
  else if a.status == "published" && dueOpt now a.unpublish_at then
    { a with status := "unpublished", updated_at := now }
  else a

/-- Modelled from the spec: one full tick of the Lifecycle Scheduler over
the store (spec section 4.4), applying the transition rule to every
article. -/
def sweep (now : Nat) (articles : List SpecArticle) : List SpecArticle :=
  articles.map (sweepArticle now)

/-! ## Shared lemmas -/

/-- Characterization of a successful `update_article`: the store splits as
`pre ++ x :: post` where `x` is the first record matching `article_id`,
the returned article is `x` patched, and the saved store replaces exactly
that record. -/
theorem update_article_ok_decomp (now : Nat) (article_id : String)
    (u : UpdateArticleRequest) :
    ∀ (articles articles' : List Article) (a' : Article),
      update_article now article_id u articles = .ok (a', articles') →
      ∃ pre x post,
        articles = pre ++ x :: post ∧
        (∀ y ∈ pre, y.id ≠ article_id) ∧
        x.id = article_id ∧
        a' = patchArticle now u x ∧
        articles' = pre ++ a' :: post := by
  intro articles
  induction articles with
  | nil =>
    intro articles' a' h
    simp [update_article] at h
  | cons head tail ih =>
    intro articles' a' h
    rw [update_article] at h
    by_cases hid : head.id = article_id
    · rw [if_pos (by simp [hid])] at h
      have hinj := Except.ok.inj h
      simp only [Prod.mk.injEq] at hinj
      refine ⟨[], head, tail, by simp, by simp, hid, hinj.1.symm, ?_⟩
      simp [← hinj.2, ← hinj.1]
    · rw [if_neg (by simp [hid])] at h
      cases hrec : update_article now article_id u tail with
      | error e => rw [hrec] at h; cases h
      | ok p =>
        obtain ⟨b, rest'⟩ := p
        rw [hrec] at h
        have hinj := Except.ok.inj h
        simp only [Prod.mk.injEq] at hinj
        obtain ⟨pre, x, post, htail, hpre, hx, hb, hrest⟩ := ih rest' b hrec
        refine ⟨head :: pre, x, post, by simp [htail], ?_, hx, hinj.1 ▸ hb, ?_⟩
        · intro y hy
          rcases List.mem_cons.mp hy with hy | hy
          · exact hy ▸ hid
          · exact hpre y hy
        · simp [← hinj.2, hrest, hinj.1]

/-- `update_article` depends on the patch only through `patchArticle`. -/
theorem update_article_congr (now : Nat) (article_id : String)
    (u v : UpdateArticleRequest)
    (hp : ∀ a, patchArticle now u a = patchArticle now v a) :
    ∀ articles : List Article,
      update_article now article_id u articles =
        update_article now article_id v articles := by
  intro articles
  induction articles with
  | nil => rfl
  | cons head tail ih =>
    rw [update_article, update_article, ih, hp]

/-- The title and url branches of `patchArticle` never touch `status`,
`publish_at`, `unpublish_at` or `id`. -/
theorem patchArticle_fields (now : Nat) (u : UpdateArticleRequest)
    (a : Article) :
    (patchArticle now u a).id = a.id ∧
    (truthyStr u.status = false →
      (patchArticle now u a).status = a.status ∧
      (patchArticle now u a).publish_at = a.publish_at ∧
      (patchArticle now u a).unpublish_at = a.unpublish_at) := by
  unfold patchArticle
  cases ht : truthyStr u.title <;> cases hu : truthyStr u.url <;>
    cases hs : truthyStr u.status <;> simp [ht, hu, hs] <;> split <;> rfl

/-! ## Claim theorems -/

/-- C1 counterexample: creating a second article with the url `"u"` of an
already stored article does not fail and does change the store — the saved
store then holds two articles with distinct ids `"1"`, `"2"` and the same
url, refuting both the `DuplicateUrl` rejection and the url-uniqueness
invariant. -/
theorem duplicate_url_not_rejected_cex :
    (add_article 0 ⟨"second", "u", "published", none⟩
        (add_article 0 ⟨"first", "u", "published", none⟩ []).2).2 =
      [⟨"1", "first", "u", "published", 0, 3153600000⟩,
       ⟨"2", "second", "u", "published", 0, 3153600000⟩] ∧
    (⟨"1", "first", "u", "published", 0, 3153600000⟩ : Article).id ≠
      (⟨"2", "second", "u", "published", 0, 3153600000⟩ : Article).id ∧
    (⟨"1", "first", "u", "published", 0, 3153600000⟩ : Article).url =
      (⟨"2", "second", "u", "published", 0, 3153600000⟩ : Article).url :=
  ⟨by decide, by decide, rfl⟩

/-- C1 (amended): `add_article` performs no duplicate-url check — even
when some stored article already has the requested url, the create
succeeds and appends a new record carrying that same url. -/
theorem create_appends_despite_duplicate_url (now : Nat)
    (req : CreateArticleRequest) (articles : List Article)
    (_h : ∃ b ∈ articles, b.url = req.url) :
    (add_article now req articles).2 =
      articles ++ [(add_article now req articles).1] ∧
    ((add_article now req articles).1).url = req.url :=
  ⟨rfl, rfl⟩

/-- Witness for `create_appends_despite_duplicate_url` at a store already
holding url `"u"`. -/
theorem create_appends_despite_duplicate_url_witness :
    (add_article 5 ⟨"t", "u", "published", none⟩
        [⟨"1", "x", "u", "published", 0, 0⟩]).2 =
      [⟨"1", "x", "u", "published", 0, 0⟩] ++
        [(add_article 5 ⟨"t", "u", "published", none⟩
            [⟨"1", "x", "u", "published", 0, 0⟩]).1] ∧
    ((add_article 5 ⟨"t", "u", "published", none⟩
        [⟨"1", "x", "u", "published", 0, 0⟩]).1).url = "u" :=
  create_appends_despite_duplicate_url 5 ⟨"t", "u", "published", none⟩
    [⟨"1", "x", "u", "published", 0, 0⟩]
    ⟨⟨"1", "x", "u", "published", 0, 0⟩, by decide, rfl⟩

/-- C4 counterexample: a create with status `"published"` and a
caller-supplied `publish_at = 0` at `now = 100` gets
`unpublish_at = 0 + unpublishDelta`, not the claimed
`now + unpublishDelta`. -/
theorem create_unpublish_sentinel_cex :
    (add_article 100 ⟨"t", "u", "published", some 0⟩ []).1.unpublish_at =
      unpublishDelta ∧
    unpublishDelta ≠ 100 + unpublishDelta :=
  ⟨rfl, by decide⟩

/-- C4 (amended): on create with status `"published"`, `publish_at` is the
caller-supplied value or else now, `unpublish_at` is that `publish_at`
plus the 100-year sentinel `unpublishDelta` (hence now plus the sentinel
exactly when `publish_at` defaults to now), and the new article appears in
the published listing; on create with status `"unpublished"`, both
timestamps are now and the new article is absent from the published
listing. -/
theorem create_scheduling_defaults (now : Nat) (req : CreateArticleRequest)
    (articles : List Article) :
    (req.status = "published" →
      (add_article now req articles).1.publish_at = req.publish_at.getD now ∧
      (add_article now req articles).1.unpublish_at =
        req.publish_at.getD now + unpublishDelta ∧
      (add_article now req articles).1 ∈
        get_articles (add_article now req articles).2) ∧
    (req.status = "unpublished" →
      (add_article now req articles).1.publish_at = now ∧
      (add_article now req articles).1.unpublish_at = now ∧
      (add_article now req articles).1 ∉
        get_articles (add_article now req articles).2) := by
  constructor
  · intro hs
    refine ⟨by simp [add_article, hs], by simp [add_article, hs], ?_⟩
    simp [add_article, get_articles, hs, List.mem_filter]
  · intro hs
    refine ⟨by simp [add_article, hs], by simp [add_article, hs], ?_⟩
    simp [add_article, get_articles, hs, List.mem_filter]

/-- Witness for `create_scheduling_defaults`, once for a published create
with no caller schedule and once for an unpublished create. -/
theorem create_scheduling_defaults_witness :
    ((add_article 7 ⟨"t", "u", "published", none⟩ []).1.publish_at =
        (none : Option Nat).getD 7 ∧
      (add_article 7 ⟨"t", "u", "published", none⟩ []).1.unpublish_at =
        (none : Option Nat).getD 7 + unpublishDelta ∧
      (add_article 7 ⟨"t", "u", "published", none⟩ []).1 ∈
        get_articles (add_article 7 ⟨"t", "u", "published", none⟩ []).2) ∧
    ((add_article 7 ⟨"t", "u", "unpublished", none⟩ []).1.publish_at = 7 ∧
      (add_article 7 ⟨"t", "u", "unpublished", none⟩ []).1.unpublish_at = 7 ∧
      (add_article 7 ⟨"t", "u", "unpublished", none⟩ []).1 ∉
        get_articles (add_article 7 ⟨"t", "u", "unpublished", none⟩ []).2) :=
  ⟨(create_scheduling_defaults 7 ⟨"t", "u", "published", none⟩ []).1 rfl,
   (create_scheduling_defaults 7 ⟨"t", "u", "unpublished", none⟩ []).2 rfl⟩

/-- C8: `load_articles` returns the empty list when the snapshot file is
absent, propagates the `json.load` error when the file exists but is
malformed (it never turns malformed content into an empty or partial
list), and returns exactly the stored records when the file is
well-formed. -/
theorem load_missing_empty_malformed_fatal :
    load_articles Snapshot.absent = .ok [] ∧
    load_articles Snapshot.malformed = .error LoadError.jsonDecodeError ∧
    ∀ articles : List Article,
      load_articles (Snapshot.wellFormed articles) = .ok articles :=
  ⟨rfl, rfl, fun _ => rfl⟩

/-- C9 counterexample: a create with the out-of-enum status `"draft"`
succeeds and stores an article whose status is neither `"unpublished"` nor
`"published"`. -/
theorem create_status_not_validated_cex :
    add_article 0 ⟨"t", "u", "draft", none⟩ [] =
      (⟨"1", "t", "u", "draft", 0, 0⟩, [⟨"1", "t", "u", "draft", 0, 0⟩]) ∧
    ("draft" : String) ≠ "unpublished" ∧
    ("draft" : String) ≠ "published" :=
  ⟨by decide, by decide, by decide⟩

/-- C9 (amended): neither `add_article` nor `update_article` validates the
status against the `{unpublished, published}` enum — a created article's
status is exactly the caller-supplied string, and a truthy status patch is
stored verbatim by update. -/
theorem status_stored_verbatim (now : Nat) (req : CreateArticleRequest)
    (articles : List Article) (article_id s : String)
    (u : UpdateArticleRequest) (articles' : List Article) (a' : Article) :
    ((add_article now req articles).1.status = req.status) ∧
    (u.status = some s → s ≠ "" →
      update_article now article_id u articles = .ok (a', articles') →
      a'.status = s) := by
  refine ⟨rfl, ?_⟩
  intro hs hne h
  obtain ⟨pre, x, post, _, _, _, ha, _⟩ :=
    update_article_ok_decomp now article_id u articles articles' a' h
  subst ha
  cases ht : truthyStr u.title <;> cases hu : truthyStr u.url <;>
    simp [patchArticle, hs, ht, hu, truthyStr, hne] <;> split <;> rfl

/-- Witness for `status_stored_verbatim` with a `"draft"` create and a
`"review"` status patch. -/
theorem status_stored_verbatim_witness :
    (add_article 3 ⟨"t", "u", "draft", none⟩ []).1.status = "draft" ∧
    ((update_article 3 "1" ⟨none, none, some "review", none⟩
        [⟨"1", "t", "u", "published", 0, 0⟩]).map Prod.fst) =
      .ok ⟨"1", "t", "u", "review", 0, 3⟩ := by
  constructor
  · exact (status_stored_verbatim 3 ⟨"t", "u", "draft", none⟩ [] "z" "z"
      ⟨none, none, none, none⟩ [] ⟨"z", "z", "z", "z", 0, 0⟩).1
  · have := (status_stored_verbatim 3 ⟨"t", "u", "draft", none⟩
      [⟨"1", "t", "u", "published", 0, 0⟩] "1" "review"
      ⟨none, none, some "review", none⟩
      [⟨"1", "t", "u", "review", 0, 3⟩] ⟨"1", "t", "u", "review", 0, 3⟩).2
      rfl (by decide) rfl
    rfl

/-- C3 counterexample: with the admin id configured as `"admin"` but the
password-hash variable unset, `verify_admin` for username `"admin"` fails
with the `AttributeError` of `None.encode()`, not with the 401
invalid-credentials response. -/
theorem verify_admin_missing_hash_cex :
    verify_admin ⟨some "admin", none⟩ (fun _ _ => .ok true) "admin" "pw" =
      .error VerifyError.attributeError ∧
    VerifyError.attributeError ≠ VerifyError.invalidCredentials :=
  ⟨rfl, by decide⟩

/-- C3 (amended): `verify_admin` answers 401 invalid-credentials exactly
on a username mismatch (including a missing admin-id configuration) or a
failed password check; when the username matches but the hash
configuration is missing it raises `AttributeError`, and when
`bcrypt.checkpw` itself raises the error propagates — in every one of
these cases access is denied, and access is granted only when the username
matches the configured id and the password checks against the configured
hash. -/
theorem verify_admin_failure_modes (cfg : AdminConfig)
    (checkpw : String → String → Except Unit Bool)
    (username password : String) :
    (some username ≠ cfg.ADMIN_USER_ID →
      verify_admin cfg checkpw username password =
        .error .invalidCredentials) ∧
    (cfg.ADMIN_USER_ID = some username → cfg.ADMIN_PASSWORD_HASH = none →
      verify_admin cfg checkpw username password = .error .attributeError) ∧
    (∀ hash, cfg.ADMIN_USER_ID = some username →
      cfg.ADMIN_PASSWORD_HASH = some hash →
      checkpw password hash = .error () →
      verify_admin cfg checkpw username password = .error .bcryptError) ∧
    (∀ hash, cfg.ADMIN_USER_ID = some username →
      cfg.ADMIN_PASSWORD_HASH = some hash →
      checkpw password hash = .ok false →
      verify_admin cfg checkpw username password =
        .error .invalidCredentials) ∧
    (∀ r, verify_admin cfg checkpw username password = .ok r →
      ∃ hash, cfg.ADMIN_USER_ID = some username ∧
        cfg.ADMIN_PASSWORD_HASH = some hash ∧
        checkpw password hash = .ok true) := by
  refine ⟨?_, ?_, ?_, ?_, ?_⟩
  · intro hne
    rw [verify_admin, if_pos (by simpa using hne)]
  · intro hid hhash
    rw [verify_admin, if_neg (by simp [hid]), hhash]
  · intro hash hid hhash hpw
    rw [verify_admin, if_neg (by simp [hid]), hhash]
    simp [hpw]
  · intro hash hid hhash hpw
    rw [verify_admin, if_neg (by simp [hid]), hhash]
    simp [hpw]
  · intro r h
    rw [verify_admin] at h
    by_cases hid : some username = cfg.ADMIN_USER_ID
    · rw [if_neg (by simp [← hid])] at h
      cases hhash : cfg.ADMIN_PASSWORD_HASH with
      | none => rw [hhash] at h; cases h
      | some hash =>
        rw [hhash] at h
        refine ⟨hash, hid.symm, rfl, ?_⟩
        cases hpw : checkpw password hash with
        | error e => simp [hpw] at h
        | ok b =>
          cases b with
          | false => simp [hpw] at h
          | true => rfl
    · rw [if_pos (by simpa using hid)] at h
      cases h

/-- Witness for `verify_admin_failure_modes`: a username mismatch against
a concrete configuration yields the 401 invalid-credentials error. -/
theorem verify_admin_failure_modes_witness :
    verify_admin ⟨some "admin", some "hash"⟩ (fun _ _ => .ok true)
      "guest" "pw" = .error .invalidCredentials :=
  (verify_admin_failure_modes ⟨some "admin", some "hash"⟩
    (fun _ _ => .ok true) "guest" "pw").1 (by decide)

/-- C5 counterexample: patching the status of article `"1"` (published,
`publish_at = 42`) to `"unpublished"` at `now = 100` resets only
`unpublish_at` to 100 — `publish_at` stays 42 instead of the claimed reset
to now. -/
theorem update_unpublished_keeps_publish_at_cex :
    update_article 100 "1" ⟨none, none, some "unpublished", none⟩
        [⟨"1", "t", "u", "published", 42, 999⟩] =
      .ok (⟨"1", "t", "u", "unpublished", 42, 100⟩,
        [⟨"1", "t", "u", "unpublished", 42, 100⟩]) ∧
    (42 : Nat) ≠ 100 :=
  ⟨rfl, by decide⟩

/-- C5 (amended): an update whose patch sets status to `"unpublished"`
stores that status and resets `unpublish_at` to now, but leaves
`publish_at` exactly as it was on the stored article. -/
theorem update_unpublished_resets_unpublish_only (now : Nat)
    (article_id : String) (u : UpdateArticleRequest)
    (articles articles' : List Article) (a' : Article)
    (hs : u.status = some "unpublished")
    (h : update_article now article_id u articles = .ok (a', articles')) :
    ∃ pre x post,
      articles = pre ++ x :: post ∧
      articles' = pre ++ a' :: post ∧
      a'.status = "unpublished" ∧
      a'.unpublish_at = now ∧
      a'.publish_at = x.publish_at := by
  obtain ⟨pre, x, post, hdec, _, _, ha, hlist⟩ :=
    update_article_ok_decomp now article_id u articles articles' a' h
  subst ha
  refine ⟨pre, x, post, hdec, hlist, ?_⟩
  have h1 : truthyStr (some "unpublished") = true := rfl
  have h2 : (("unpublished" : String) == "published") = false := rfl
  cases ht : truthyStr u.title <;> cases hu : truthyStr u.url <;>
    simp [patchArticle, hs, ht, hu, h1, h2]

/-- Witness for `update_unpublished_resets_unpublish_only` on a concrete
published article. -/
theorem update_unpublished_resets_unpublish_only_witness :
    ∃ pre x post,
      [(⟨"1", "t", "u", "published", 42, 999⟩ : Article)] =
        pre ++ x :: post ∧
      [(⟨"1", "t", "u", "unpublished", 42, 100⟩ : Article)] =
        pre ++ (⟨"1", "t", "u", "unpublished", 42, 100⟩ : Article) :: post ∧
      (⟨"1", "t", "u", "unpublished", 42, 100⟩ : Article).status =
        "unpublished" ∧
      (⟨"1", "t", "u", "unpublished", 42, 100⟩ : Article).unpublish_at =
        100 ∧
      (⟨"1", "t", "u", "unpublished", 42, 100⟩ : Article).publish_at =
        x.publish_at :=
  update_unpublished_resets_unpublish_only 100 "1"
    ⟨none, none, some "unpublished", none⟩
    [⟨"1", "t", "u", "published", 42, 999⟩]
    [⟨"1", "t", "u", "unpublished", 42, 100⟩]
    ⟨"1", "t", "u", "unpublished", 42, 100⟩ rfl rfl

/-- C6: an update whose patch carries only a non-empty title changes
exactly the matched article's title — its id, url, status, `publish_at`
and `unpublish_at` are untouched (the record update fixes every other
field), every other article in the store is untouched, and the stored
records carry no further field such as `updated_at`. -/
theorem update_title_only_frame (now : Nat) (article_id t : String)
    (articles articles' : List Article) (a' : Article) (ht : t ≠ "")
    (h : update_article now article_id ⟨some t, none, none, none⟩ articles =
      .ok (a', articles')) :
    ∃ pre x post,
      articles = pre ++ x :: post ∧
      (∀ y ∈ pre, y.id ≠ article_id) ∧
      x.id = article_id ∧
      a' = { x with title := t } ∧
      articles' = pre ++ a' :: post := by
  obtain ⟨pre, x, post, hdec, hpre, hx, ha, hlist⟩ :=
    update_article_ok_decomp now article_id
      ⟨some t, none, none, none⟩ articles articles' a' h
  refine ⟨pre, x, post, hdec, hpre, hx, ?_, hlist⟩
  rw [ha]
  simp [patchArticle, truthyStr, ht]

/-- Witness for `update_title_only_frame` on a concrete two-article
store. -/
theorem update_title_only_frame_witness :
    ∃ pre x post,
      [(⟨"1", "old", "u1", "published", 4, 9⟩ : Article),
        ⟨"2", "t2", "u2", "unpublished", 5, 5⟩] = pre ++ x :: post ∧
      (∀ y ∈ pre, y.id ≠ "2") ∧
      x.id = "2" ∧
      (⟨"2", "X", "u2", "unpublished", 5, 5⟩ : Article) =
        { x with title := "X" } ∧
      [(⟨"1", "old", "u1", "published", 4, 9⟩ : Article),
        ⟨"2", "X", "u2", "unpublished", 5, 5⟩] =
        pre ++ (⟨"2", "X", "u2", "unpublished", 5, 5⟩ : Article) :: post :=
  update_title_only_frame 77 "2" "X"
    [⟨"1", "old", "u1", "published", 4, 9⟩,
      ⟨"2", "t2", "u2", "unpublished", 5, 5⟩]
    [⟨"1", "old", "u1", "published", 4, 9⟩,
      ⟨"2", "X", "u2", "unpublished", 5, 5⟩]
    ⟨"2", "X", "u2", "unpublished", 5, 5⟩ (by decide) rfl

/-- C2: a scheduler tick treats every article by `sweepArticle`; an
unpublished article whose `publish_at` is set and at most now becomes
published with `updated_at = now`; a published article whose
`unpublish_at` is set and at most now becomes unpublished with
`updated_at = now`; and a tick changes an article's status only in those
two situations. -/
theorem scheduler_tick_transitions (now : Nat)
    (articles : List SpecArticle) (a : SpecArticle) :
    sweep now articles = articles.map (sweepArticle now) ∧
    (∀ p, a.status = "unpublished" → a.publish_at = some p → p ≤ now →
      sweepArticle now a =
        { a with status := "published", updated_at := now }) ∧
    (∀ t, a.status = "published" → a.unpublish_at = some t → t ≤ now →
      sweepArticle now a =
        { a with status := "unpublished", updated_at := now }) ∧
    ((sweepArticle now a).status ≠ a.status →
      (a.status = "unpublished" ∧ ∃ p, a.publish_at = some p ∧ p ≤ now) ∨
      (a.status = "published" ∧ ∃ t, a.unpublish_at = some t ∧ t ≤ now)) := by
  refine ⟨rfl, ?_, ?_, ?_⟩
  · intro p hs hp hle
    have hd : dueOpt now a.publish_at = true := by simp [hp, dueOpt, hle]
    simp [sweepArticle, hs, hd]
  · intro t hs ht hle
    have hd : dueOpt now a.unpublish_at = true := by simp [ht, dueOpt, hle]
    simp [sweepArticle, hs, hd]
  · intro hne
    unfold sweepArticle at hne
    by_cases h1 : (a.status == "unpublished" && dueOpt now a.publish_at) = true
    · left
      obtain ⟨hs, hd⟩ := Bool.and_eq_true_iff.mp h1
      refine ⟨eq_of_beq hs, ?_⟩
      cases hp : a.publish_at with
      | none => rw [hp] at hd; cases hd
      | some p =>
        rw [hp] at hd
        exact ⟨p, rfl, by simpa [dueOpt] using hd⟩
    · by_cases h2 : (a.status == "published" && dueOpt now a.unpublish_at) = true
      · right
        obtain ⟨hs, hd⟩ := Bool.and_eq_true_iff.mp h2
        refine ⟨eq_of_beq hs, ?_⟩
        cases ht : a.unpublish_at with
        | none => rw [ht] at hd; cases hd
        | some t =>
          rw [ht] at hd
          exact ⟨t, rfl, by simpa [dueOpt] using hd⟩
      · rw [if_neg h1, if_neg h2] at hne
        exact absurd rfl hne

/-- Witness for `scheduler_tick_transitions`: one due publish transition
and one due unpublish transition at `now = 10`. -/
theorem scheduler_tick_transitions_witness :
    sweepArticle 10 ⟨"unpublished", some 5, none, 0⟩ =
      (⟨"published", some 5, none, 10⟩ : SpecArticle) ∧
    sweepArticle 10 ⟨"published", none, some 3, 0⟩ =
      (⟨"unpublished", none, some 3, 10⟩ : SpecArticle) :=
  ⟨(scheduler_tick_transitions 10 [] ⟨"unpublished", some 5, none, 0⟩).2.1
      5 rfl rfl (by decide),
   (scheduler_tick_transitions 10 [] ⟨"published", none, some 3, 0⟩).2.2.1
      3 rfl rfl (by decide)⟩

/-- C7: validating a token issued by `create_token` for a subject returns
that subject whenever the current time is at most the embedded expiry
(issue time plus `TOKEN_EXPIRATION_MINUTES`), and fails with the
token-expired error exactly when the current time exceeds that expiry. -/
theorem token_validation_expiry (issued_at now : Nat) (subject : String) :
    (now ≤ issued_at + TOKEN_EXPIRATION_MINUTES * 60 →
      get_current_admin now (.bearer (create_token issued_at subject)) =
        .ok subject) ∧
    (issued_at + TOKEN_EXPIRATION_MINUTES * 60 < now →
      get_current_admin now (.bearer (create_token issued_at subject)) =
        .error .tokenExpired) := by
  constructor
  · intro hle
    have hnot : ¬ (issued_at + TOKEN_EXPIRATION_MINUTES * 60 < now) :=
      Nat.not_lt.mpr hle
    simp [get_current_admin, jwt_decode, create_token, hnot]
  · intro hlt
    simp [get_current_admin, jwt_decode, create_token, hlt]

/-- Witness for `token_validation_expiry`: a token issued at time 0 with
the 60-minute TTL validates fine at +10 minutes and fails as expired at
+61 minutes (3660 seconds). -/
theorem token_validation_expiry_witness :
    get_current_admin 600 (.bearer (create_token 0 "admin")) =
      .ok "admin" ∧
    get_current_admin 3660 (.bearer (create_token 0 "admin")) =
      .error .tokenExpired :=
  ⟨(token_validation_expiry 0 600 "admin").1 (by decide),
   (token_validation_expiry 0 3660 "admin").2 (by decide)⟩

/-- C10: an update patch field holding the empty string is falsy in the
`if update_data.title:` style guards, so the update behaves exactly as if
the field were absent — for the title, the url and the status alike. -/
theorem empty_string_patch_treated_absent (now : Nat) (article_id : String)
    (u : UpdateArticleRequest) (articles : List Article) :
    (u.title = some "" →
      update_article now article_id u articles =
        update_article now article_id { u with title := none } articles) ∧
    (u.url = some "" →
      update_article now article_id u articles =
        update_article now article_id { u with url := none } articles) ∧
    (u.status = some "" →
      update_article now article_id u articles =
        update_article now article_id { u with status := none } articles) := by
  have e1 : truthyStr (some "") = false := rfl
  have e2 : truthyStr (none : Option String) = false := rfl
  refine ⟨?_, ?_, ?_⟩ <;> intro hf <;>
    exact update_article_congr now article_id _ _
      (fun a => by simp [patchArticle, hf, e1, e2]) articles

/-- Witness for `empty_string_patch_treated_absent` on a concrete store,
one conjunct per field. -/
theorem empty_string_patch_treated_absent_witness :
    update_article 9 "1" ⟨some "", none, none, none⟩
        [⟨"1", "t", "u", "published", 1, 2⟩] =
      update_article 9 "1" ⟨none, none, none, none⟩
        [⟨"1", "t", "u", "published", 1, 2⟩] ∧
    update_article 9 "1" ⟨none, some "", none, none⟩
        [⟨"1", "t", "u", "published", 1, 2⟩] =
      update_article 9 "1" ⟨none, none, none, none⟩
        [⟨"1", "t", "u", "published", 1, 2⟩] ∧
    update_article 9 "1" ⟨none, none, some "", none⟩
        [⟨"1", "t", "u", "published", 1, 2⟩] =
      update_article 9 "1" ⟨none, none, none, none⟩
        [⟨"1", "t", "u", "published", 1, 2⟩] :=
  ⟨(empty_string_patch_treated_absent 9 "1" ⟨some "", none, none, none⟩
      [⟨"1", "t", "u", "published", 1, 2⟩]).1 rfl,
   (empty_string_patch_treated_absent 9 "1" ⟨none, some "", none, none⟩
      [⟨"1", "t", "u", "published", 1, 2⟩]).2.1 rfl,
   (empty_string_patch_treated_absent 9 "1" ⟨none, none, some "", none⟩
      [⟨"1", "t", "u", "published", 1, 2⟩]).2.2 rfl⟩

end GoodNews
